import Mathlib

/-!
Verification of the stock-analyzer core (src/app.py) against its specification.

The embedding models Python floats by exact rationals (ℚ) and models pandas
NaN / missing values by `Option ℚ` (`none` = NaN).  Every comparison against a
NaN value in the source evaluates to `False` in Python; the `o*` comparison
combinators below mirror that behaviour ("fail closed").

Because `Rat` arithmetic in core Lean normalizes through `Nat.gcd`, which is
defined by well-founded recursion and hence does not reduce inside the kernel,
the embedding performs its rational arithmetic through the kernel-reducible
operations `qadd`, `qsub`, `qmul`, `qdiv`, `qneg`, `qabs` built on `mkQ`.
The theorems `qadd_eq`, `qsub_eq`, `qmul_eq`, `qdiv_eq`, `qneg_eq`, `qabs_eq`
prove that these operations agree with the ordinary field operations of ℚ,
so the embedding computes genuine rational arithmetic.
-/

namespace StockApp

/-- Fuel-based Euclidean gcd; structurally recursive, so it reduces in the kernel. -/
def gcdF : ℕ → ℕ → ℕ → ℕ
  | 0, m, _ => m
  | _ + 1, 0, n => n
  | fuel + 1, m + 1, n => gcdF fuel (n % (m + 1)) (m + 1)

theorem gcdF_eq : ∀ (fuel m n : ℕ), m < fuel → gcdF fuel m n = Nat.gcd m n := by
  intro fuel
  induction fuel with
  | zero => intro m n h; omega
  | succ f ih =>
    intro m n h
    match m with
    | 0 => simp [gcdF]
    | k + 1 =>
      have hk : n % (k + 1) < f := by
        have := Nat.mod_lt n (show 0 < k + 1 by omega)
        omega
      rw [gcdF, ih _ _ hk, Nat.gcd_succ]

theorem gcdF_dvd_left (n : ℤ) (d : ℕ) : ((gcdF (n.natAbs + 1) n.natAbs d : ℕ) : ℤ) ∣ n := by
  rw [gcdF_eq _ _ _ (Nat.lt_succ_self _)]
  exact Int.dvd_natAbs.mp (Int.ofNat_dvd.mpr (Nat.gcd_dvd_left _ _))

theorem gcdF_dvd_right (n : ℤ) (d : ℕ) : gcdF (n.natAbs + 1) n.natAbs d ∣ d := by
  rw [gcdF_eq _ _ _ (Nat.lt_succ_self _)]
  exact Nat.gcd_dvd_right _ _

theorem gcdF_pos (n : ℤ) (d : ℕ) (hd : d ≠ 0) : 0 < gcdF (n.natAbs + 1) n.natAbs d := by
  rw [gcdF_eq _ _ _ (Nat.lt_succ_self _)]
  exact Nat.gcd_pos_of_pos_right _ (Nat.pos_of_ne_zero hd)

theorem mkQ_den_nz (n : ℤ) (d : ℕ) (hd : d ≠ 0) :
    d / gcdF (n.natAbs + 1) n.natAbs d ≠ 0 :=
  Nat.ne_of_gt (Nat.div_pos
    (Nat.le_of_dvd (Nat.pos_of_ne_zero hd) (gcdF_dvd_right n d)) (gcdF_pos n d hd))

theorem mkQ_reduced (n : ℤ) (d : ℕ) (hd : d ≠ 0) :
    (n / ((gcdF (n.natAbs + 1) n.natAbs d : ℕ) : ℤ)).natAbs.Coprime
      (d / gcdF (n.natAbs + 1) n.natAbs d) := by
  have habs : (n / ((gcdF (n.natAbs + 1) n.natAbs d : ℕ) : ℤ)).natAbs
      = n.natAbs / gcdF (n.natAbs + 1) n.natAbs d := by
    rw [Int.natAbs_ediv n _ (gcdF_dvd_left n d)]; simp
  rw [habs, gcdF_eq _ _ _ (Nat.lt_succ_self _)]
  exact Nat.coprime_div_gcd_div_gcd
    (by rw [← gcdF_eq _ _ _ (Nat.lt_succ_self _)]; exact gcdF_pos n d hd)

/-- The reduced rational n/d, built directly so that it reduces in the kernel. -/
def mkQ (n : ℤ) (d : ℕ) : ℚ :=
  if hd : d = 0 then 0 else
    ⟨n / ((gcdF (n.natAbs + 1) n.natAbs d : ℕ) : ℤ), d / gcdF (n.natAbs + 1) n.natAbs d,
      mkQ_den_nz n d hd, mkQ_reduced n d hd⟩

theorem rat_mk_eq_div (num : ℤ) (den : ℕ) (h1 h2) :
    (⟨num, den, h1, h2⟩ : ℚ) = (num : ℚ) / (den : ℚ) := by
  conv_lhs => rw [← Rat.num_div_den ⟨num, den, h1, h2⟩]

theorem mkQ_eq (n : ℤ) (d : ℕ) (hd : d ≠ 0) : mkQ n d = (n : ℚ) / (d : ℚ) := by
  rw [mkQ, dif_neg hd, rat_mk_eq_div]
  have hdvdn := gcdF_dvd_left n d
  have hdvdd := gcdF_dvd_right n d
  have hg0 := gcdF_pos n d hd
  set g : ℕ := gcdF (n.natAbs + 1) n.natAbs d with hgdef
  have hn : (g : ℤ) * (n / (g : ℤ)) = n := Int.mul_ediv_cancel' hdvdn
  have hd2 : g * (d / g) = d := Nat.mul_div_cancel' hdvdd
  have hgQ : ((g : ℚ)) ≠ 0 := by positivity
  rw [show ((n : ℚ)) = ((g : ℚ)) * ((n / (g : ℤ) : ℤ) : ℚ) by
    rw [show ((n : ℚ)) = (((g : ℤ) * (n / (g : ℤ)) : ℤ) : ℚ) by rw [hn]]; push_cast; ring]
  rw [show ((d : ℚ)) = ((g : ℚ)) * ((d / g : ℕ) : ℚ) by
    rw [show ((d : ℚ)) = ((g * (d / g) : ℕ) : ℚ) by rw [hd2]]; push_cast; ring]
  rw [mul_div_mul_left _ _ hgQ]

theorem mkQ_zero_den (n : ℤ) : mkQ n 0 = 0 := by rw [mkQ]; simp

/-- Exact rational addition (kernel-reducible); agrees with `+` by `qadd_eq`. -/
def qadd (a b : ℚ) : ℚ := mkQ (a.num * b.den + b.num * a.den) (a.den * b.den)

/-- Exact rational subtraction; agrees with `-` by `qsub_eq`. -/
def qsub (a b : ℚ) : ℚ := mkQ (a.num * b.den - b.num * a.den) (a.den * b.den)

/-- Exact rational multiplication; agrees with `*` by `qmul_eq`. -/
def qmul (a b : ℚ) : ℚ := mkQ (a.num * b.num) (a.den * b.den)

/-- Exact rational negation; agrees with `Neg.neg` by `qneg_eq`. -/
def qneg (a : ℚ) : ℚ := mkQ (-a.num) a.den

/-- Exact rational inverse; agrees with `Inv.inv` by `qinv_eq`. -/
def qinv (a : ℚ) : ℚ :=
  if a.num < 0 then mkQ (-(a.den : ℤ)) a.num.natAbs else mkQ (a.den : ℤ) a.num.natAbs

/-- Exact rational division; agrees with `/` by `qdiv_eq`. -/
def qdiv (a b : ℚ) : ℚ := qmul a (qinv b)

/-- Exact rational absolute value; agrees with `|·|` by `qabs_eq`. -/
def qabs (a : ℚ) : ℚ := if a.num < 0 then qneg a else a

theorem num_div_den_eq (a : ℚ) : ((a.num : ℚ)) / ((a.den : ℚ)) = a := Rat.num_div_den a

theorem qadd_eq (a b : ℚ) : qadd a b = a + b := by
  rw [qadd, mkQ_eq _ _ (Nat.mul_ne_zero a.den_nz b.den_nz)]
  conv_rhs => rw [← num_div_den_eq a, ← num_div_den_eq b]
  rw [div_add_div _ _ (by exact_mod_cast a.den_nz) (by exact_mod_cast b.den_nz)]
  push_cast; ring_nf

theorem qsub_eq (a b : ℚ) : qsub a b = a - b := by
  rw [qsub, mkQ_eq _ _ (Nat.mul_ne_zero a.den_nz b.den_nz)]
  conv_rhs => rw [← num_div_den_eq a, ← num_div_den_eq b]
  rw [div_sub_div _ _ (by exact_mod_cast a.den_nz) (by exact_mod_cast b.den_nz)]
  push_cast; ring_nf

theorem qmul_eq (a b : ℚ) : qmul a b = a * b := by
  rw [qmul, mkQ_eq _ _ (Nat.mul_ne_zero a.den_nz b.den_nz)]
  conv_rhs => rw [← num_div_den_eq a, ← num_div_den_eq b]
  rw [div_mul_div_comm]
  push_cast; ring_nf

theorem qneg_eq (a : ℚ) : qneg a = -a := by
  rw [qneg, mkQ_eq _ _ a.den_nz]
  conv_rhs => rw [← num_div_den_eq a]
  push_cast; ring_nf

theorem num_lt_zero_iff (a : ℚ) : a.num < 0 ↔ a < 0 := by
  rw [← not_le, ← not_le, Rat.num_nonneg]

theorem qinv_eq (a : ℚ) : qinv a = a⁻¹ := by
  rw [qinv]
  rcases lt_trichotomy a.num 0 with h | h | h
  · have habs : ((a.num.natAbs : ℚ)) = -((a.num : ℚ)) := by
      rw [Int.cast_natAbs, Int.cast_abs]
      exact abs_of_neg (show ((a.num : ℚ)) < 0 by exact_mod_cast h)
    rw [if_pos h, mkQ_eq _ _ (Int.natAbs_ne_zero.mpr (ne_of_lt h))]
    conv_rhs => rw [← num_div_den_eq a]
    rw [inv_div, habs]
    push_cast
    rw [div_neg, ← neg_div, neg_neg]
  · rw [if_neg (by omega), h]
    simp only [Int.natAbs_zero, mkQ_zero_den]
    rw [(Rat.num_eq_zero.mp h : a = 0)]
    simp
  · have habs : ((a.num.natAbs : ℚ)) = ((a.num : ℚ)) := by
      rw [Int.cast_natAbs, Int.cast_abs]
      exact abs_of_nonneg (show (0 : ℚ) ≤ ((a.num : ℚ)) by exact_mod_cast le_of_lt h)
    rw [if_neg (by omega), mkQ_eq _ _ (Int.natAbs_ne_zero.mpr (by omega)), habs]
    conv_rhs => rw [← num_div_den_eq a]
    rw [inv_div]
    push_cast
    ring

theorem qdiv_eq (a b : ℚ) : qdiv a b = a / b := by
  rw [qdiv, qmul_eq, qinv_eq, div_eq_mul_inv]

theorem qabs_eq (a : ℚ) : qabs a = |a| := by
  rw [qabs]
  rcases lt_or_le a.num 0 with h | h
  · rw [if_pos h, qneg_eq, abs_of_neg ((num_lt_zero_iff a).mp h)]
  · rw [if_neg (by omega), abs_of_nonneg (Rat.num_nonneg.mp h)]

/-- Sum of a list of rationals (kernel-reducible). -/
def qsum (l : List ℚ) : ℚ := l.foldl qadd 0

theorem qsum_eq_aux (l : List ℚ) : ∀ (a : ℚ), l.foldl qadd a = a + l.sum := by
  induction l with
  | nil => intro a; simp [List.sum_nil]
  | cons x xs ih =>
    intro a
    rw [List.foldl_cons, ih, qadd_eq, List.sum_cons]
    ring

theorem qsum_eq (l : List ℚ) : qsum l = l.sum := by
  rw [qsum, qsum_eq_aux]; ring

/-! ### NaN-aware values and comparisons

`Option ℚ` models a float column value: `none` is NaN / undefined.
In Python/pandas every ordered comparison with NaN yields `False`; arithmetic
with NaN yields NaN.  The combinators below reproduce this exactly.
-/

/-- `a > b` with NaN failing closed (Python float semantics). -/
def oGt (a b : Option ℚ) : Bool :=
  match a, b with
  | some x, some y => decide (y < x)
  | _, _ => false

/-- `a ≥ b` with NaN failing closed. -/
def oGe (a b : Option ℚ) : Bool :=
  match a, b with
  | some x, some y => decide (y ≤ x)
  | _, _ => false

/-- `a < b` with NaN failing closed. -/
def oLt (a b : Option ℚ) : Bool :=
  match a, b with
  | some x, some y => decide (x < y)
  | _, _ => false

/-- `a ≤ b` with NaN failing closed. -/
def oLe (a b : Option ℚ) : Bool :=
  match a, b with
  | some x, some y => decide (x ≤ y)
  | _, _ => false

/-- NaN-propagating addition. -/
def oadd (a b : Option ℚ) : Option ℚ :=
  match a, b with
  | some x, some y => some (qadd x y)
  | _, _ => none

/-- NaN-propagating subtraction. -/
def osub (a b : Option ℚ) : Option ℚ :=
  match a, b with
  | some x, some y => some (qsub x y)
  | _, _ => none

/-- NaN-propagating multiplication. -/
def omul (a b : Option ℚ) : Option ℚ :=
  match a, b with
  | some x, some y => some (qmul x y)
  | _, _ => none

/-- NaN-propagating division.  Only used in the embedding at points where the
source guards the denominator away from zero (a true float division by zero
would give ±inf/NaN; every such site in the source is modelled case-by-case). -/
def odiv (a b : Option ℚ) : Option ℚ :=
  match a, b with
  | some x, some y => some (qdiv x y)
  | _, _ => none

/-- NaN-propagating absolute value. -/
def oabs (a : Option ℚ) : Option ℚ := a.map qabs

/-- Minimum of the defined values of a list, as pandas `Series.min()` (skipna):
`none` iff no value is defined. -/
def oMinList (l : List (Option ℚ)) : Option ℚ :=
  match l.filterMap id with
  | [] => none
  | x :: xs => some (xs.foldl (fun a b => if b < a then b else a) x)

/-- Maximum of the defined values of a list, as pandas `Series.max()` (skipna). -/
def oMaxList (l : List (Option ℚ)) : Option ℚ :=
  match l.filterMap id with
  | [] => none
  | x :: xs => some (xs.foldl (fun a b => if a < b then b else a) x)

/-- Mean of the defined values of a list, as pandas `Series.mean()` (skipna):
`none` iff no value is defined. -/
def oMean (l : List (Option ℚ)) : Option ℚ :=
  match l.filterMap id with
  | [] => none
  | x :: xs => some (qdiv (qsum (x :: xs)) (mkQ (x :: xs).length 1))

/-- The last `n` entries of a list (pandas `Series.tail`). -/
def lastN (n : ℕ) (l : List α) : List α := l.drop (l.length - n)

/-- `Series.diff()`: first entry NaN, then pairwise differences
(NaN whenever either neighbour is NaN). -/
def odiff : List (Option ℚ) → List (Option ℚ)
  | [] => []
  | x :: xs => none :: odiffGo x xs
where
  odiffGo : Option ℚ → List (Option ℚ) → List (Option ℚ)
  | _, [] => []
  | p, y :: ys => osub y p :: odiffGo y ys

/-- Rolling window ending at index `i` (inclusive) of width `w`:
`xs[i+1-w : i+1]`. -/
def windowAt (w i : ℕ) (xs : List α) : List α := (xs.take (i + 1)).drop (i + 1 - w)

/-- `Series.rolling(w).mean()` on a fully defined column: defined from index
`w-1` on (pandas `min_periods` defaults to the window size). -/
def rollingMean (w : ℕ) (xs : List ℚ) : List (Option ℚ) :=
  (List.range xs.length).map fun i =>
    if w ≤ i + 1 then some (qdiv (qsum (windowAt w i xs)) (mkQ w 1)) else none

/-- `Series.rolling(w).max()` on a fully defined column. -/
def rollingMax (w : ℕ) (xs : List ℚ) : List (Option ℚ) :=
  (List.range xs.length).map fun i =>
    if w ≤ i + 1 then oMaxList ((windowAt w i xs).map some) else none

/-- `Series.rolling(w).min()` on a fully defined column. -/
def rollingMin (w : ℕ) (xs : List ℚ) : List (Option ℚ) :=
  (List.range xs.length).map fun i =>
    if w ≤ i + 1 then oMinList ((windowAt w i xs).map some) else none

/-- `Series.rolling(w).min()` on a column that may contain NaN: with pandas
default `min_periods = w` the result is defined only when all `w` values in
the window are defined. -/
def rollingMinOpt (w : ℕ) (xs : List (Option ℚ)) : List (Option ℚ) :=
  (List.range xs.length).map fun i =>
    if w ≤ i + 1 ∧ ((windowAt w i xs).filterMap id).length = w
    then oMinList (windowAt w i xs) else none

/-- `Series.rolling(w).mean()` on a column that may contain NaN
(defined only when all `w` window values are defined, as `min_periods = w`). -/
def rollingMeanOpt (w : ℕ) (xs : List (Option ℚ)) : List (Option ℚ) :=
  (List.range xs.length).map fun i =>
    if w ≤ i + 1 ∧ ((windowAt w i xs).filterMap id).length = w
    then oMean (windowAt w i xs) else none

/-- `Series.ewm(adjust=False).mean()` with smoothing factor `alpha`, on a fully
defined column: `y₀ = x₀`, `yₜ = (1−alpha)·yₜ₋₁ + alpha·xₜ`. -/
def ewmMean (alpha : ℚ) (xs : List ℚ) : List ℚ :=
  match xs with
  | [] => []
  | x :: rest => x :: ewmGo alpha x rest
where
  ewmGo (alpha : ℚ) : ℚ → List ℚ → List ℚ
  | _, [] => []
  | p, y :: ys =>
      let v := qadd (qmul (qsub 1 alpha) p) (qmul alpha y)
      v :: ewmGo alpha v ys

/-- `Series.ewm(adjust=False).mean()` on a column whose undefined values are a
(possibly empty) prefix — the only shape produced by this pipeline (the KDJ
raw stochastic has NaN exactly on the first `w-1` rows, never later, because
its denominator is padded by an epsilon).  Output is NaN until the first
defined value, which seeds the recursion. -/
def ewmMeanOpt (alpha : ℚ) : List (Option ℚ) → List (Option ℚ)
  | [] => []
  | none :: rest => none :: ewmMeanOpt alpha rest
  | some x :: rest => some x :: ewmOptGo alpha x rest
where
  ewmOptGo (alpha : ℚ) : ℚ → List (Option ℚ) → List (Option ℚ)
  | _, [] => []
  | p, y :: ys =>
      let v := qadd (qmul (qsub 1 alpha) p) (qmul alpha (y.getD p))
      some v :: ewmOptGo alpha v ys

/-! ### Indicator Pipeline (`TechProvider._process_indicators`, src/app.py:650-717)

A `Bar` is one raw OHLCV row; a `Row` is one row of the enriched frame.
Raw bars are fully defined (yfinance rows after `dropna`); derived columns are
`Option ℚ` (`none` = NaN, i.e. "not enough history yet").
-/

/-- One raw trading day (columns Open/High/Low/Close/Volume). -/
structure Bar where
  open_price : ℚ
  high : ℚ
  low : ℚ
  close : ℚ
  volume : ℚ
deriving DecidableEq

/-- One row of the enriched series: raw columns plus every derived column
computed by `_process_indicators`.  Derived numeric columns are `Option ℚ`
(undefined for the first `window - 1` rows); the comparison-derived columns
are `Bool` (pandas emits `False` where an operand is NaN). -/
structure Row where
  open_price : Option ℚ := none
  high : Option ℚ := none
  low : Option ℚ := none
  close : Option ℚ := none
  volume : Option ℚ := none
  ma5 : Option ℚ := none
  ma10 : Option ℚ := none
  ma20 : Option ℚ := none
  ma60 : Option ℚ := none
  ma60_slope : Option ℚ := none
  ma60_rising : Bool := false
  break_price_ma5 : Bool := false
  ma5_break_ma10 : Bool := false
  ma5_up : Bool := false
  vol_ma5 : Option ℚ := none
  vol_up : Bool := false
  vol_ma20 : Option ℚ := none
  vol_ma60 : Option ℚ := none
  high_60 : Option ℚ := none
  low_60 : Option ℚ := none
  rsi : Option ℚ := none
  dif : Option ℚ := none
  dea : Option ℚ := none
  macd_hist : Option ℚ := none
  macd : Option ℚ := none
  macd_signal : Option ℚ := none
  k : Option ℚ := none
  d : Option ℚ := none
  j : Option ℚ := none
deriving DecidableEq

/-- The all-undefined row (used only as an out-of-range access default). -/
def emptyRow : Row := {}

/-- Index into a fully defined column. -/
def gq (xs : List ℚ) (i : ℕ) : Option ℚ := xs[i]?

/-- Index into an optional column. -/
def go (xs : List (Option ℚ)) (i : ℕ) : Option ℚ := (xs[i]?).join

/-- Index into a column shifted down by one (`Series.shift(1)`): NaN at row 0. -/
def goShift (xs : List (Option ℚ)) (i : ℕ) : Option ℚ :=
  match i with
  | 0 => none
  | j + 1 => (xs[j]?).join

/-- The epsilon `1e-10` the source adds to RSI and KDJ denominators. -/
def eps10 : ℚ := mkQ 1 10000000000

/-- The Close column. -/
def closesOf (bars : List Bar) : List ℚ := bars.map (·.close)

/-- The High column. -/
def highsOf (bars : List Bar) : List ℚ := bars.map (·.high)

/-- The Low column. -/
def lowsOf (bars : List Bar) : List ℚ := bars.map (·.low)

/-- The Volume column. -/
def volsOf (bars : List Bar) : List ℚ := bars.map (·.volume)

/-- `MA60_Slope = df[MA60].diff()` (src/app.py:667). -/
def slopeLOf (bars : List Bar) : List (Option ℚ) := odiff (rollingMean 60 (closesOf bars))

/-- `MA60_Slope.rolling(3).min()` (src/app.py:668). -/
def risingLOf (bars : List Bar) : List (Option ℚ) := rollingMinOpt 3 (slopeLOf bars)

/-- `delta = df[Close].diff()` (src/app.py:692). -/
def deltaLOf (bars : List Bar) : List (Option ℚ) := odiff ((closesOf bars).map some)

/-- `delta.where(delta > 0, 0)` (src/app.py:693): NaN (row 0) also becomes 0. -/
def gainsLOf (bars : List Bar) : List ℚ :=
  (deltaLOf bars).map fun dv => match dv with
    | some x => if 0 < x then x else 0
    | none => 0

/-- `-delta.where(delta < 0, 0)` (src/app.py:694). -/
def lossesLOf (bars : List Bar) : List ℚ :=
  (deltaLOf bars).map fun dv => match dv with
    | some x => if x < 0 then qneg x else 0
    | none => 0

/-- `ema12 = Close.ewm(span=12, adjust=False).mean()` (src/app.py:699): span 12
gives smoothing factor 2/13. -/
def ema12LOf (bars : List Bar) : List ℚ := ewmMean (mkQ 2 13) (closesOf bars)

/-- `ema26 = Close.ewm(span=26, adjust=False).mean()` (src/app.py:700). -/
def ema26LOf (bars : List Bar) : List ℚ := ewmMean (mkQ 2 27) (closesOf bars)

/-- `DIF = ema12 - ema26` (src/app.py:701). -/
def difLOf (bars : List Bar) : List ℚ := List.zipWith qsub (ema12LOf bars) (ema26LOf bars)

/-- `DEA = DIF.ewm(span=9, adjust=False).mean()` (src/app.py:702): span 9 gives
smoothing factor 1/5. -/
def deaLOf (bars : List Bar) : List ℚ := ewmMean (mkQ 1 5) (difLOf bars)

/-- `MACD_Hist = DIF - DEA` (src/app.py:703). -/
def histLOf (bars : List Bar) : List ℚ := List.zipWith qsub (difLOf bars) (deaLOf bars)

/-- The raw stochastic `rsv` of KDJ(9,3,3) (src/app.py:710-712), with the
epsilon-padded denominator. -/
def rsvLOf (bars : List Bar) : List (Option ℚ) :=
  (List.range bars.length).map fun i =>
    omul (odiv (osub (gq (closesOf bars) i) (go (rollingMin 9 (lowsOf bars)) i))
               (oadd (osub (go (rollingMax 9 (highsOf bars)) i)
                           (go (rollingMin 9 (lowsOf bars)) i))
                     (some eps10)))
         (some (100 : ℚ))

/-- `K = rsv.ewm(com=2, adjust=False).mean()` (src/app.py:713): com 2 gives
smoothing factor 1/3. -/
def kLOf (bars : List Bar) : List (Option ℚ) := ewmMeanOpt (mkQ 1 3) (rsvLOf bars)

/-- `D = K.ewm(com=2, adjust=False).mean()` (src/app.py:714). -/
def dLOf (bars : List Bar) : List (Option ℚ) := ewmMeanOpt (mkQ 1 3) (kLOf bars)

/-- Row `i` of the enriched frame: faithful column-by-column translation of
`_process_indicators` (src/app.py:662-715). -/
def enrichRowAt (bars : List Bar) (i : ℕ) : Row :=
  { open_price := gq (bars.map (·.open_price)) i
    high := gq (highsOf bars) i
    low := gq (lowsOf bars) i
    close := gq (closesOf bars) i
    volume := gq (volsOf bars) i
    ma5 := go (rollingMean 5 (closesOf bars)) i
    ma10 := go (rollingMean 10 (closesOf bars)) i
    ma20 := go (rollingMean 20 (closesOf bars)) i
    ma60 := go (rollingMean 60 (closesOf bars)) i
    ma60_slope := go (slopeLOf bars) i
    ma60_rising := oGt (go (risingLOf bars) i) (some 0)
    break_price_ma5 :=
      oLe (goShift ((closesOf bars).map some) i) (goShift (rollingMean 5 (closesOf bars)) i)
        && oGt (gq (closesOf bars) i) (go (rollingMean 5 (closesOf bars)) i)
    ma5_break_ma10 :=
      oLe (goShift (rollingMean 5 (closesOf bars)) i) (goShift (rollingMean 10 (closesOf bars)) i)
        && oGt (go (rollingMean 5 (closesOf bars)) i) (go (rollingMean 10 (closesOf bars)) i)
    ma5_up := oGt (go (rollingMean 5 (closesOf bars)) i) (goShift (rollingMean 5 (closesOf bars)) i)
    vol_ma5 := go (rollingMean 5 (volsOf bars)) i
    vol_up := oGt (gq (volsOf bars) i) (go (rollingMean 5 (volsOf bars)) i)
    vol_ma20 := go (rollingMean 20 (volsOf bars)) i
    vol_ma60 := go (rollingMean 60 (volsOf bars)) i
    high_60 := go (rollingMax 60 (highsOf bars)) i
    low_60 := go (rollingMin 60 (lowsOf bars)) i
    rsi := osub (some 100) (odiv (some 100)
      (oadd (some 1) (odiv (go (rollingMean 14 (gainsLOf bars)) i)
        (oadd (go (rollingMean 14 (lossesLOf bars)) i) (some eps10)))))
    dif := gq (difLOf bars) i
    dea := gq (deaLOf bars) i
    macd_hist := gq (histLOf bars) i
    macd := gq (difLOf bars) i
    macd_signal := gq (deaLOf bars) i
    k := go (kLOf bars) i
    d := go (dLOf bars) i
    j := osub (omul (some 3) (go (kLOf bars) i)) (omul (some 2) (go (dLOf bars) i)) }

/-- `_process_indicators` column computation: one enriched row per input row. -/
def enrich (bars : List Bar) : List Row :=
  (List.range bars.length).map (enrichRowAt bars)

/-- `_process_indicators` (src/app.py:651-717): `None` on fewer than 30 rows,
otherwise the enriched series with the same row count. -/
def process_indicators (bars : List Bar) : Option (List Row) :=
  if bars.length < 30 then none else some (enrich bars)

/-! ### Three-layer strategy architecture (src/app.py:952-1396)

These functions consume an enriched series.  They are stated over arbitrary
`List Row` (every theorem about them therefore also covers every output of
`enrich`).  Row access mirrors the source: `curr = df.iloc[-1]`,
`prev = df.iloc[-2] if len(df) > 1 else curr`, and the 60-day-average slope is
recomputed as `df[MA60].diff().tail(5).mean()` at each call site.
-/

/-- `df.iloc[-1]` (callers guard non-emptiness; the default is unreachable). -/
def currRow (rows : List Row) : Row := (rows[rows.length - 1]?).getD emptyRow

/-- `df.iloc[-2] if len(df) > 1 else curr`. -/
def prevRow (rows : List Row) : Row :=
  if 1 < rows.length then (rows[rows.length - 2]?).getD emptyRow else currRow rows

/-- `float(df[MA60].diff().tail(5).mean())`: the 5-day mean of the day-over-day
difference of the 60-day average (NaN-skipping mean; NaN if no defined entry). -/
def ma60SlopeOf (rows : List Row) : Option ℚ :=
  oMean (lastN 5 (odiff (rows.map (·.ma60))))

/-- The local helper `prev_n_days` of `select_strategy_mode` (src/app.py:1042-1045)
and `evaluate_stock` (src/app.py:1121-1125): `series.iloc[-(n+1):-1]`, i.e. the
window of n entries strictly before the most recent one; empty when fewer than
n+1 entries exist. -/
def prev_n_days (s : List α) (n : ℕ) : List α :=
  if s.length < n + 1 then [] else (s.drop (s.length - (n + 1))).take n

/-- Layer-1 result (`market_regime_gate` output dict). -/
structure GateResult where
  allow_long : Bool
  regime : String
  reason : String
deriving DecidableEq

/-- Layer 1, `market_regime_gate` (src/app.py:952-997): market state decision
table over the most recent row and the MA60 slope. -/
def market_regime_gate (rows : List Row) : GateResult :=
  if rows.length < 30 then
    { allow_long := false, regime := "UNKNOWN", reason := "資料不足，無法判斷市場狀態" }
  else
    if oGe (currRow rows).close (currRow rows).ma60 && oGe (currRow rows).ma20 (currRow rows).ma60
        && oGt (ma60SlopeOf rows) (some 0) then
      { allow_long := true, regime := "BULL",
        reason := "多頭市場：指數 > MA60，MA20 > MA60，MA60 上揚" }
    else if oGe (currRow rows).close (currRow rows).ma60 then
      { allow_long := true, regime := "NEUTRAL",
        reason := "盤整市場：指數在 MA60 上方，但趨勢不明" }
    else
      { allow_long := false, regime := "BEAR",
        reason := "空頭市場：指數跌破 MA60，多頭方向關閉" }

/-- Layer-2 result (`select_strategy_mode` output dict). -/
structure ModeResult where
  mode : String
  reason : String
deriving DecidableEq

/-- Layer 2, `select_strategy_mode` (src/app.py:1000-1085): classifies the
structural posture into Trend (Mode B) / Pullback (Mode A) / NoTrade. -/
def select_strategy_mode (rows : List Row) (market_regime : String) : ModeResult :=
  if rows.length < 30 then
    { mode := "NoTrade", reason := "資料不足" }
  else if market_regime = "BEAR" then
    { mode := "NoTrade", reason := "空頭市場，不進行交易" }
  else
    let curr := currRow rows
    let close := curr.close
    let ma20 := curr.ma20
    let ma60 := curr.ma60
    let slope := ma60SlopeOf rows
    let price_above_ma20 := oGt close ma20
    let price_above_ma60 := oGe close ma60
    let ma20_above_ma60 := oGe ma20 ma60
    let ma60_rising := oGt slope (some 0)
    let is_low_consolidation :=
      oLt close ma60 && oGt close (omul ma60 (some (mkQ 9 10)))
    if price_above_ma20 && price_above_ma60 && ma20_above_ma60 && ma60_rising
        && !is_low_consolidation then
      { mode := "Trend",
        reason := "Mode B（趨勢型）：價格站上 MA20/MA60，MA60 上彎，非低檔盤整" }
    else
      let price_near_ma20 :=
        if oGt ma20 (some 0) then oLe (odiv (oabs (osub close ma20)) ma20) (some (mkQ 1 20))
        else false
      let price_near_ma60 :=
        if oGt ma60 (some 0) then oLe (odiv (oabs (osub close ma60)) ma60) (some (mkQ 1 20))
        else false
      let price_near_ma := price_near_ma20 || price_near_ma60
      let prev10_low := prev_n_days (rows.map (·.low)) 10
      let no_new_low :=
        if prev10_low.isEmpty then true else oGe close (oMinList prev10_low)
      let ma60_not_falling := oGe slope (some 0)
      if price_near_ma && no_new_low && ma60_not_falling then
        { mode := "Pullback",
          reason := "Mode A（回檔型）：價格接近 MA20/MA60，未破前低，MA60 未下彎" }
      else
        { mode := "NoTrade",
          reason := "不符合 Mode A 或 Mode B 的結構條件"
            ++ (if market_regime = "NEUTRAL" then "（盤整市場）" else "") }

/-- The fixed overextension threshold `MAX_MA60_EXTENSION = 1.25`
(src/app.py:1109). -/
def MAX_MA60_EXTENSION : ℚ := mkQ 5 4

/-- `ma60_extension_ratio = close / ma60 if ma60 > 0 else 1.0`
(src/app.py:1158). -/
def ma60_extension_ratio (curr : Row) : Option ℚ :=
  if oGt curr.ma60 (some 0) then odiv curr.close curr.ma60 else some 1

/-- `is_overextended = ma60_extension_ratio > MAX_MA60_EXTENSION`
(src/app.py:1159). -/
def is_overextended (curr : Row) : Bool :=
  oGt (ma60_extension_ratio curr) (some MAX_MA60_EXTENSION)

/-- The overextension caveat appended to the Watch rationale
(src/app.py:1274). -/
def overextensionCaveat : String := "（高檔乖離 > 25%，僅可觀察，不可買進）"

/-- The Watch block of `evaluate_stock` (src/app.py:1184-1212): returns the
`watch` flag together with `watch_reason_parts`.  Watch requires
regime = BULL; Mode B re-verifies the trend structure, Mode A requires
close ≥ MA60 and no new low versus the prior-10-day minimum close. -/
def watch_signal (rows : List Row) (market_regime strategy_mode : String) :
    Bool × List String :=
  let curr := currRow rows
  let close := curr.close
  let slope := ma60SlopeOf rows
  if market_regime = "BULL" then
    if strategy_mode = "Trend" then
      let price_above_ma20 := oGt close curr.ma20
      let price_above_ma60 := oGe close curr.ma60
      let ma20_above_ma60 := oGe curr.ma20 curr.ma60
      let ma60_rising := oGt slope (some 0)
      let no_structure_break := price_above_ma60
      if price_above_ma20 && price_above_ma60 && ma20_above_ma60 && ma60_rising
          && no_structure_break then
        (true,
          [if is_overextended curr then "Mode B 趨勢股，但高檔整理中（等待回測或放量突破）"
           else "Mode B 趨勢股，結構完整，等待進場觸發"])
      else (false, [])
    else if strategy_mode = "Pullback" then
      let price_above_ma60 := oGe close curr.ma60
      let prev10_close := prev_n_days (rows.map (·.close)) 10
      let no_new_low :=
        if prev10_close.isEmpty then true else oGe close (oMinList prev10_close)
      let no_structure_break := price_above_ma60
      if price_above_ma60 && no_new_low && no_structure_break then
        (true, ["Mode A 回檔型，結構完整，等待止跌訊號"])
      else (false, [])
    else (false, [])
  else (false, [])

/-- The Buy block of `evaluate_stock` (src/app.py:1214-1269): evaluated only
when Watch holds and the stock is not overextended (the guard at
src/app.py:1216); returns the `buy` flag with `buy_reason_parts`. -/
def buy_signal (rows : List Row) (market_regime strategy_mode : String)
    (watch : Bool) : Bool × List String :=
  let curr := currRow rows
  let prevR := prevRow rows
  let close := curr.close
  if watch && !is_overextended curr then
    if strategy_mode = "Trend" then
      let prev10_high := prev_n_days (rows.map (·.high)) 10
      let recent_high_10 := oMaxList prev10_high
      let breakout_trigger :=
        (if prev10_high.isEmpty then false else oGt close recent_high_10)
          && oGe curr.volume (omul curr.vol_ma20 (some (mkQ 3 2)))
      let pullback_to_ma20 :=
        if oGt curr.ma20 (some 0)
        then oLe (odiv (oabs (osub close curr.ma20)) curr.ma20) (some (mkQ 1 50))
        else false
      let pullback_to_ma10 :=
        if oGt curr.ma10 (some 0)
        then oLe (odiv (oabs (osub close curr.ma10)) curr.ma10) (some (mkQ 1 50))
        else false
      let volume_shrink := oLt curr.volume (omul curr.vol_ma20 (some (mkQ 4 5)))
      let bullish_candle := oGt close curr.open_price
      let long_lower_shadow :=
        if oGt curr.high curr.low
        then oGt (odiv (osub close curr.low) (osub curr.high curr.low)) (some (mkQ 1 2))
        else false
      let pullback_trigger :=
        (pullback_to_ma20 || pullback_to_ma10) && volume_shrink
          && (bullish_candle || long_lower_shadow)
      if breakout_trigger then
        (true, ["Mode B 突破觸發：收盤價創近10日新高且量能放大 ≥ 1.5×20日均量"])
      else if pullback_trigger then
        (true, ["Mode B 回測觸發：回測 MA20/MA10 不破，量縮，出現止跌訊號"])
      else (false, [])
    else if strategy_mode = "Pullback" then
      let prev10_close := prev_n_days (rows.map (·.close)) 10
      let recent_low_close := oMinList prev10_close
      let price_above_recent_low :=
        if prev10_close.isEmpty then true else oGe close recent_low_close
      let bullish_candle := oGt close curr.open_price
      let volume_shrink := oLt curr.volume (omul curr.vol_ma20 (some (mkQ 4 5)))
      let kd_reversal :=
        match curr.k, curr.d, prevR.k, prevR.d with
        | some kc, some dc, some kp, some dp => decide (dc < kc) && decide (kp ≤ dp)
        | _, _, _, _ => false
      let rsi_rebound := oGt curr.rsi (some 40) && oLt curr.rsi (some 60)
      let has_reversal_signal := bullish_candle || volume_shrink || kd_reversal || rsi_rebound
      let price_not_below_ma60 := oGe close curr.ma60
      if price_above_recent_low && has_reversal_signal && price_not_below_ma60 then
        (true, ["Mode A 止跌觸發：價格 ≥ 前10日低點，出現止跌訊號，未破 MA60"])
      else (false, [])
    else (false, [])
  else (false, [])

/-- `max(0, min(100, confidence))` (src/app.py:1293). -/
def clampConfidence (c : ℤ) : ℤ := if c ≤ 0 then 0 else if 100 ≤ c then 100 else c

/-- Layer-3 result (`evaluate_stock` output dict), with `reason_parts`
exposing the `reason_parts` list the source joins into `reason`. -/
structure EvalResult where
  watch : Bool
  buy : Bool
  confidence : ℤ
  reason : String
  reason_parts : List String
deriving DecidableEq

/-- Layer 3, `evaluate_stock` (src/app.py:1088-1308).  Order of business as in
the source: insufficient data, liquidity gate, BEAR gate, NoTrade gate, Watch
block, Buy block (guarded by Watch ∧ ¬overextended), overextension caveat,
defensive Buy∧¬Watch correction, confidence, reason assembly. -/
def evaluate_stock (rows : List Row) (market_regime strategy_mode : String) :
    EvalResult :=
  if rows.length < 30 then
    { watch := false, buy := false, confidence := 0,
      reason := "資料不足，無法評估", reason_parts := [] }
  else
    if !oGt (currRow rows).vol_ma20 (some 0) then
      { watch := false, buy := false, confidence := 0,
        reason := "流動性不足（Vol_MA20 為 0 或過低）", reason_parts := [] }
    else if market_regime = "BEAR" then
      { watch := false, buy := false, confidence := 0,
        reason := "市場狀態：BEAR，多頭方向關閉", reason_parts := [] }
    else if strategy_mode = "NoTrade" then
      { watch := false, buy := false, confidence := 0,
        reason := "不符合 Mode A 或 Mode B 的結構條件", reason_parts := [] }
    else
      let ws := watch_signal rows market_regime strategy_mode
      let watch := ws.fst
      let bs := buy_signal rows market_regime strategy_mode watch
      let watch_parts :=
        if is_overextended (currRow rows) && watch then ws.snd ++ [overextensionCaveat]
        else ws.snd
      let buy := if bs.fst && !watch then false else bs.fst
      let buy_parts : List String := if bs.fst && !watch then [] else bs.snd
      let confidence := clampConfidence
        ((if watch then 40 else 0) + (if buy then 40 else 0)
          + (if market_regime = "BULL" then 20
             else if market_regime = "NEUTRAL" then 10 else 0))
      let reason_parts :=
        (if watch then watch_parts else []) ++ (if buy then buy_parts else [])
      { watch := watch, buy := buy, confidence := confidence,
        reason := if reason_parts.isEmpty then "不符合任何條件"
                  else String.intercalate "；" reason_parts,
        reason_parts := reason_parts }

/-- Strategy-engine decision record (src/app.py:1329-1396).  The legacy
compatibility fields `regime`/`signal`/`status`/`reasons` are `Option`s
because the insufficient-data return (src/app.py:1330-1337) omits them. -/
structure EngineResult where
  market_regime : String
  mode : String
  watch : Bool
  buy : Bool
  confidence : ℤ
  reason : String
  regime : Option String
  signal : Option String
  status : Option String
  reasons : Option (List String)
deriving DecidableEq

/-- `strategy_engine` (src/app.py:1311-1396): Layer 1 → Layer 2 → Layer 3 with
short-circuits when the gate denies longs or the selector returns NoTrade. -/
def strategy_engine (rows : List Row) : EngineResult :=
  if rows.length < 30 then
    { market_regime := "UNKNOWN", mode := "NoTrade", watch := false, buy := false,
      confidence := 0, reason := "資料不足，無法判斷",
      regime := none, signal := none, status := none, reasons := none }
  else
    if !(market_regime_gate rows).allow_long then
      { market_regime := (market_regime_gate rows).regime, mode := "NoTrade",
        watch := false, buy := false,
        confidence := 0, reason := (market_regime_gate rows).reason,
        regime := some (market_regime_gate rows).regime, signal := some "none",
        status := some (market_regime_gate rows).reason,
        reasons := some [(market_regime_gate rows).reason] }
    else
      if (select_strategy_mode rows (market_regime_gate rows).regime).mode = "NoTrade" then
        { market_regime := (market_regime_gate rows).regime, mode := "NoTrade",
          watch := false, buy := false,
          confidence := 0,
          reason := (select_strategy_mode rows (market_regime_gate rows).regime).reason,
          regime := some (market_regime_gate rows).regime, signal := some "none",
          status := some (select_strategy_mode rows (market_regime_gate rows).regime).reason,
          reasons := some [(select_strategy_mode rows (market_regime_gate rows).regime).reason] }
      else
        let eval_result := evaluate_stock rows (market_regime_gate rows).regime
          (select_strategy_mode rows (market_regime_gate rows).regime).mode
        { market_regime := (market_regime_gate rows).regime,
          mode := if (select_strategy_mode rows (market_regime_gate rows).regime).mode = "Trend"
                  then "B" else "A",
          watch := eval_result.watch, buy := eval_result.buy,
          confidence := eval_result.confidence, reason := eval_result.reason,
          regime := some (market_regime_gate rows).regime,
          signal := some (if eval_result.buy then "buy"
                          else if eval_result.watch then "watch" else "none"),
          status := some eval_result.reason, reasons := some [eval_result.reason] }

/-! ### Composite Scorer (`analyze_stock` scoring block, src/app.py:890-928) -/

/-- The `ticker.info` fundamentals the scorer reads.  A `none` models both a
missing key and an explicit `None` value (the source falls back to `inf` /
skips / defaults to 0 accordingly; see the individual checks). -/
structure FundamentalInfo where
  trailingPE : Option ℚ := none
  pegRatio : Option ℚ := none
  earningsGrowth : Option ℚ := none
  trailingEps : Option ℚ := none
  revenueGrowth : Option ℚ := none
deriving DecidableEq

/-- `pe = info.get(trailingPE, inf); if pe is None: pe = inf; pe < 25`
(missing/None → inf → check fails). -/
def peCheck (info : FundamentalInfo) : Bool :=
  match info.trailingPE with
  | some pe => decide (pe < 25)
  | none => false

/-- `peg = info.get(pegRatio, inf); peg is not None and peg <= 1.2`. -/
def pegCheck (info : FundamentalInfo) : Bool :=
  match info.pegRatio with
  | some peg => decide (peg ≤ mkQ 6 5)
  | none => false

/-- `earnings_growth is not None and earnings_growth > 0.1`. -/
def earningsGrowthCheck (info : FundamentalInfo) : Bool :=
  match info.earningsGrowth with
  | some eg => decide (mkQ 1 10 < eg)
  | none => false

/-- `info.get(trailingEps, 0) > 0` (the half-credit fallback). -/
def epsPositive (info : FundamentalInfo) : Bool :=
  decide ((0 : ℚ) < info.trailingEps.getD 0)

/-- `info.get(revenueGrowth, 0) > 0.1`. -/
def revenueGrowthCheck (info : FundamentalInfo) : Bool :=
  decide (mkQ 1 10 < info.revenueGrowth.getD 0)

/-- `prev[RSI] < 40 and curr[RSI] >= 40` (src/app.py:918). -/
def rsiGoldenCross (prevR curr : Row) : Bool :=
  oLt prevR.rsi (some 40) && oGe curr.rsi (some 40)

/-- `curr[MACD_Hist] > 0 and curr[MACD_Hist] > prev[MACD_Hist]`
(src/app.py:920). -/
def macdTurningUp (prevR curr : Row) : Bool :=
  oGt curr.macd_hist (some 0) && oGt curr.macd_hist prevR.macd_hist

/-- `curr[Volume] / curr[Vol_MA20] >= 1.3` (src/app.py:925-926) under exact
IEEE semantics: NaN operands fail; a zero average gives +inf (passes) for a
positive volume and NaN or −inf (fails) otherwise; a negative average flips
the inequality. -/
def volumeSurgeCheck (curr : Row) : Bool :=
  match curr.volume, curr.vol_ma20 with
  | some v, some m =>
      if 0 < m then decide (qmul (mkQ 13 10) m ≤ v)
      else if m = 0 then decide (0 < v)
      else decide (v ≤ qmul (mkQ 13 10) m)
  | _, _ => false

/-- `curr[Close] > curr[High_60]` (src/app.py:924). -/
def breakHigh60Check (curr : Row) : Bool := oGt curr.close curr.high_60

/-- The scoring block of `analyze_stock` (src/app.py:892-926): the accumulated
`score` over the eleven checks (the EPS check contributes 1, or 0.5 on the
positive-EPS fallback). -/
def analyze_score_sum (info : FundamentalInfo) (curr prevR : Row) : ℚ :=
  qsum [
    (if peCheck info then 1 else 0),
    (if pegCheck info then 1 else 0),
    (if earningsGrowthCheck info then 1 else if epsPositive info then mkQ 1 2 else 0),
    (if revenueGrowthCheck info then 1 else 0),
    (if oGt curr.ma20 curr.ma60 then 1 else 0),
    (if oGt curr.close curr.ma60 then 1 else 0),
    (if curr.ma60_rising then 1 else 0),
    (if rsiGoldenCross prevR curr then 1 else 0),
    (if macdTurningUp prevR curr then 1 else 0),
    (if breakHigh60Check curr then 1 else 0),
    (if volumeSurgeCheck curr then 1 else 0)]

/-- `final_score = (score / 10) * 100` (src/app.py:928) on an enriched series,
reading `curr = df.iloc[-1]` and `prev = df.iloc[-2]` (fewer than two rows
raises in the source and `analyze_stock` returns `None`). -/
def analyze_stock_score (info : FundamentalInfo) (rows : List Row) : Option ℚ :=
  if rows.length < 2 then none
  else some (qmul (qdiv (analyze_score_sum info (currRow rows) (prevRow rows)) (mkQ 10 1))
    (mkQ 100 1))

/-- `analyze_stock` scoring on raw bars: `TechProvider.fetch_data` returns
`None` below `MIN_REQUIRED_ROWS = 30` (src/app.py:597-600) and otherwise feeds
`_process_indicators` output to the scoring block. -/
def analyze_stock_on_bars (info : FundamentalInfo) (bars : List Bar) : Option ℚ :=
  match process_indicators bars with
  | none => none
  | some rows => analyze_stock_score info rows

/-! ### Crossover Filter (`ma5_breakout_ma20_filter`, src/app.py:1471-1533) -/

/-- `ma5_breakout_ma20_filter` match decision (src/app.py:1491-1514): `true`
iff the function returns a result dict.  Requires at least two rows; fails
closed when any of MA5/MA20 at the last two rows is NaN; condition 1 is
`close > MA5` today, condition 2 is the MA5/MA20 crossover
(`MA5 ≤ MA20` yesterday and `MA5 > MA20` today). -/
def ma5_breakout_ma20_filter (rows : List Row) : Bool :=
  if rows.length < 2 then false
  else
    let curr := currRow rows
    let prevR := prevRow rows
    match curr.ma5, prevR.ma5, curr.ma20, prevR.ma20 with
    | some ma5_curr, some ma5_prev, some ma20_curr, some ma20_prev =>
        oGt curr.close (some ma5_curr)
          && (decide (ma5_prev ≤ ma20_prev) && decide (ma20_curr < ma5_curr))
    | _, _, _, _ => false

/-! ### Flow-Direction Detector (`detect_chip_switch`, src/app.py:2091-2121) -/

/-- One row of the aligned institutional-flow frame: raw daily net flow
(`Net_Buy`) and its 5-day moving average (`Chip_MA5`). -/
structure ChipRow where
  net_buy : Option ℚ := none
  chip_ma5 : Option ℚ := none
deriving DecidableEq

/-- The sign-change test `detect_chip_switch` applies to the last two entries
of a dropna-ed series: ≤0 → >0 reports the first label, ≥0 → <0 the second;
otherwise (or with fewer than two entries) no result. -/
def sign_switch_test (s : List ℚ) (upLabel downLabel : String) :
    Option (String × ℚ × ℚ) :=
  if 2 ≤ s.length then
    let prev_val := (s[s.length - 2]?).getD 0
    let last_val := (s[s.length - 1]?).getD 0
    if prev_val ≤ 0 ∧ 0 < last_val then some (upLabel, prev_val, last_val)
    else if 0 ≤ prev_val ∧ last_val < 0 then some (downLabel, prev_val, last_val)
    else none
  else none

/-- `detect_chip_switch` (src/app.py:2091-2121): tests the last two non-NA
raw net-flow values; when that test yields nothing (fewer than two values, or
no sign change), falls through to the same test on the 5-day average. -/
def detect_chip_switch (chips : List ChipRow) : Option (String × ℚ × ℚ) :=
  match sign_switch_test (chips.filterMap (·.net_buy)) "賣轉買" "買轉賣" with
  | some r => some r
  | none => sign_switch_test (chips.filterMap (·.chip_ma5)) "賣轉買(MA)" "買轉賣(MA)"

/-! ### Claim theorems -/

theorem buy_signal_of_watch_false (rows : List Row) (market_regime strategy_mode : String) :
    (buy_signal rows market_regime strategy_mode false).fst = false := by
  simp [buy_signal]

theorem buy_signal_fst_imp_watch (rows : List Row) (market_regime strategy_mode : String)
    (w : Bool) (h : (buy_signal rows market_regime strategy_mode w).fst = true) :
    w = true := by
  cases w
  · rw [buy_signal_of_watch_false] at h
    exact absurd h (by simp)
  · rfl

theorem buy_and_not_watch_false (rows : List Row) (g m : String) :
    ((buy_signal rows g m (watch_signal rows g m).fst).fst
      && !(watch_signal rows g m).fst) = false := by
  cases hw : (watch_signal rows g m).fst
  · rw [buy_signal_of_watch_false]; simp
  · simp

/-- C2: the defensive correction branch of `evaluate_stock` (force `buy` to
false when `buy ∧ ¬watch`) is unreachable: for every input series, regime and
mode, the condition `buy ∧ ¬watch` computed at the check point is false,
because the Buy block only ever sets `buy` under the `watch ∧ ¬overextended`
guard. -/
theorem c2_correction_branch_unreachable (rows : List Row)
    (market_regime strategy_mode : String) :
    ((buy_signal rows market_regime strategy_mode
        (watch_signal rows market_regime strategy_mode).fst).fst
      && !(watch_signal rows market_regime strategy_mode).fst) = false :=
  buy_and_not_watch_false rows market_regime strategy_mode

/-- C8: `prev_n_days`, the "prior n days" window used by
`select_strategy_mode` and `evaluate_stock` (for the prior 10-day low,
prior 10-day minimum close and prior 10-day high), returns exactly the n
entries immediately preceding the most recent one: it equals the last n
entries of the series with its final entry removed, and it has length n —
the current day is never included. -/
theorem c8_prev_n_days_window {α : Type} (s : List α) (n : ℕ) (h : n + 1 ≤ s.length) :
    prev_n_days s n = s.dropLast.drop (s.dropLast.length - n)
      ∧ (prev_n_days s n).length = n := by
  constructor
  · rw [prev_n_days, if_neg (by omega), List.length_dropLast, List.dropLast_eq_take,
      List.take_drop]
    rw [show s.length - (n + 1) + n = s.length - 1 by omega,
      show s.length - (n + 1) = s.length - 1 - n by omega]
  · rw [prev_n_days, if_neg (by omega), List.length_take, List.length_drop]
    omega

/-- Witness for C8 at a concrete series of length 12 with n = 10: the window
is the 10 entries preceding the last, the last entry (11) is excluded. -/
theorem c8_prev_n_days_window_witness :
    10 + 1 ≤ ([0, 1, 2, 3, 4, 5, 6, 7, 8, 9, 10, 11] : List ℕ).length
      ∧ (prev_n_days ([0, 1, 2, 3, 4, 5, 6, 7, 8, 9, 10, 11] : List ℕ) 10
          = [0, 1, 2, 3, 4, 5, 6, 7, 8, 9, 10, 11].dropLast.drop
              ([0, 1, 2, 3, 4, 5, 6, 7, 8, 9, 10, 11].dropLast.length - 10)
        ∧ (prev_n_days ([0, 1, 2, 3, 4, 5, 6, 7, 8, 9, 10, 11] : List ℕ) 10).length = 10)
      ∧ prev_n_days ([0, 1, 2, 3, 4, 5, 6, 7, 8, 9, 10, 11] : List ℕ) 10
          = [1, 2, 3, 4, 5, 6, 7, 8, 9, 10] :=
  ⟨by decide,
   c8_prev_n_days_window [0, 1, 2, 3, 4, 5, 6, 7, 8, 9, 10, 11] 10 (by decide),
   by decide⟩

/-- The decision table of the Market Regime Gate as the specification states
it: with fewer than 30 rows UNKNOWN / no-long; otherwise, reading only the
latest row close, MA20, MA60 and the 5-day mean of the MA60 day-over-day
difference: (1) close ≥ MA60 ∧ MA20 ≥ MA60 ∧ slope > 0 → BULL, allow long;
(2) else close ≥ MA60 → NEUTRAL, allow long; (3) else BEAR, no long. -/
def regime_gate_table (len : ℕ) (close ma20 ma60 slope : Option ℚ) : GateResult :=
  if len < 30 then
    { allow_long := false, regime := "UNKNOWN", reason := "資料不足，無法判斷市場狀態" }
  else if oGe close ma60 && oGe ma20 ma60 && oGt slope (some 0) then
    { allow_long := true, regime := "BULL",
      reason := "多頭市場：指數 > MA60，MA20 > MA60，MA60 上揚" }
  else if oGe close ma60 then
    { allow_long := true, regime := "NEUTRAL",
      reason := "盤整市場：指數在 MA60 上方，但趨勢不明" }
  else
    { allow_long := false, regime := "BEAR",
      reason := "空頭市場：指數跌破 MA60，多頭方向關閉" }

/-- C3: `market_regime_gate` is exactly the ordered decision table of the
specification, and it reads nothing but the row count, the latest row close,
20- and 60-day averages, and the 5-day mean of the MA60 day-over-day
difference. -/
theorem c3_gate_is_decision_table (rows : List Row) :
    market_regime_gate rows
      = regime_gate_table rows.length (currRow rows).close (currRow rows).ma20
          (currRow rows).ma60 (ma60SlopeOf rows) := rfl

/-- The Crossover Filter as claim C5 words it, with the crossing test against
the 10-day average: current close above the current 5-day average, 5-day
average at most the 10-day average yesterday and above it today, failing
closed when any of the four moving-average values is NaN. -/
def crossover_filter_ma10_claim (rows : List Row) : Bool :=
  if rows.length < 2 then false
  else
    let curr := currRow rows
    let prevR := prevRow rows
    match curr.ma5, prevR.ma5, curr.ma10, prevR.ma10 with
    | some ma5_curr, some ma5_prev, some ma10_curr, some ma10_prev =>
        oGt curr.close (some ma5_curr)
          && (decide (ma5_prev ≤ ma10_prev) && decide (ma10_curr < ma5_curr))
    | _, _, _, _ => false

/-- The concrete two-row series refuting C5: yesterday MA5 = 9.8, MA10 = 10.0,
MA20 = 9.0; today MA5 = 10.2, MA10 = 10.1, MA20 = 10.5, close = 10.3. -/
def crossoverCexRows : List Row :=
  [{ ma5 := some (mkQ 49 5), ma10 := some 10, ma20 := some 9 },
   { ma5 := some (mkQ 51 5), ma10 := some (mkQ 101 10), ma20 := some (mkQ 21 2),
     close := some (mkQ 103 10) }]

/-- C5 counterexample: on `crossoverCexRows` the claim predicate (crossing
against the 10-day average) reports a match, but the filter in the source
compares MA5 against MA20 and reports none — the claim biconditional fails at
this input. -/
theorem c5_counterexample :
    crossover_filter_ma10_claim crossoverCexRows = true
      ∧ ma5_breakout_ma20_filter crossoverCexRows = false := by
  constructor <;> decide

/-- The Crossover Filter as amended: identical to the claim but crossing
against the 20-day average, as the source does. -/
def crossover_filter_ma20_spec (rows : List Row) : Bool :=
  decide (2 ≤ rows.length)
    && ((currRow rows).ma5.isSome && (prevRow rows).ma5.isSome
        && (currRow rows).ma20.isSome && (prevRow rows).ma20.isSome)
    && oGt (currRow rows).close (currRow rows).ma5
    && (oLe (prevRow rows).ma5 (prevRow rows).ma20
        && oGt (currRow rows).ma5 (currRow rows).ma20)

/-- C5 amended: the filter reports a match exactly when, over the two most
recent rows, the current close exceeds the current 5-day average and the
5-day average was at most the 20-day average yesterday and exceeds it today,
failing closed whenever one of the four moving-average values is undefined. -/
theorem c5_amended_crossover_ma20 (rows : List Row) :
    ma5_breakout_ma20_filter rows = crossover_filter_ma20_spec rows := by
  unfold ma5_breakout_ma20_filter crossover_filter_ma20_spec
  by_cases h : rows.length < 2
  · rw [if_pos h]
    have h2 : ¬ (2 ≤ rows.length) := by omega
    simp [h2]
  · rw [if_neg h]
    have h2 : (2 ≤ rows.length) := by omega
    rcases h5c : (currRow rows).ma5 with _ | m5c <;>
      rcases h5p : (prevRow rows).ma5 with _ | m5p <;>
        rcases h20c : (currRow rows).ma20 with _ | m20c <;>
          rcases h20p : (prevRow rows).ma20 with _ | m20p <;>
            simp [h2, h5c, h5p, h20c, h20p, oGt, oLe]

/-- The Flow-Direction Detector as claim C6 words it: the sign test on the
last two defined raw values whenever at least two exist (with no fallback in
that case), and the smoothed-average test only when fewer than two defined
raw values exist. -/
def detect_chip_switch_claim (chips : List ChipRow) : Option (String × ℚ × ℚ) :=
  let s := chips.filterMap (·.net_buy)
  if 2 ≤ s.length then sign_switch_test s "賣轉買" "買轉賣"
  else sign_switch_test (chips.filterMap (·.chip_ma5)) "賣轉買(MA)" "買轉賣(MA)"

/-- The concrete flow record refuting C6: two defined raw values [5, 3] with
no sign change, smoothed series [−1, 2] crossing from ≤0 to >0. -/
def chipCexRecord : List ChipRow :=
  [{ net_buy := some 5, chip_ma5 := some (-1) }, { net_buy := some 3, chip_ma5 := some 2 }]

/-- C6 counterexample: with two defined raw values showing no sign change the
source still falls through to the smoothed 5-day average and reports a
sell-to-buy switch there, while the claim (fallback only when fewer than two
defined raw values exist) reports no match. -/
theorem c6_counterexample :
    detect_chip_switch chipCexRecord = some ("賣轉買(MA)", -1, 2)
      ∧ detect_chip_switch_claim chipCexRecord = none := by
  constructor <;> decide

/-- C6 amended: the detector reports a result exactly when either the raw
net-flow sign test fires, or the raw test yields nothing (fewer than two
defined values, or two values with no sign change) and the sign test on the
5-day smoothed average fires. -/
theorem c6_amended_fallback (chips : List ChipRow) (r : String × ℚ × ℚ) :
    detect_chip_switch chips = some r
      ↔ (sign_switch_test (chips.filterMap (·.net_buy)) "賣轉買" "買轉賣" = some r
         ∨ (sign_switch_test (chips.filterMap (·.net_buy)) "賣轉買" "買轉賣" = none
            ∧ sign_switch_test (chips.filterMap (·.chip_ma5)) "賣轉買(MA)" "買轉賣(MA)"
                = some r)) := by
  unfold detect_chip_switch
  cases h : sign_switch_test (chips.filterMap (·.net_buy)) "賣轉買" "買轉賣" <;> simp [h]

theorem evaluate_stock_buy_imp_watch (rows : List Row) (market_regime strategy_mode : String) :
    (evaluate_stock rows market_regime strategy_mode).buy = true →
      (evaluate_stock rows market_regime strategy_mode).watch = true := by
  unfold evaluate_stock
  by_cases h1 : rows.length < 30
  · rw [if_pos h1]; intro h; simp at h
  · rw [if_neg h1]
    by_cases h2 : (!oGt (currRow rows).vol_ma20 (some 0)) = true
    · rw [if_pos h2]; intro h; simp at h
    · rw [if_neg h2]
      by_cases h3 : market_regime = "BEAR"
      · rw [if_pos h3]; intro h; simp at h
      · rw [if_neg h3]
        by_cases h4 : strategy_mode = "NoTrade"
        · rw [if_pos h4]; intro h; simp at h
        · rw [if_neg h4]
          intro h
          simp only at h ⊢
          cases hw : (watch_signal rows market_regime strategy_mode).fst
          · rw [hw] at h
            rw [buy_signal_of_watch_false] at h
            simp at h
          · simp [hw]

theorem gate_allow_long_not_bear (rows : List Row)
    (h : (market_regime_gate rows).allow_long = true) :
    (market_regime_gate rows).regime ≠ "BEAR" := by
  unfold market_regime_gate at h ⊢
  by_cases h1 : rows.length < 30
  · rw [if_pos h1] at h; simp at h
  · rw [if_neg h1] at h ⊢
    by_cases h2 : (oGe (currRow rows).close (currRow rows).ma60
        && oGe (currRow rows).ma20 (currRow rows).ma60
        && oGt (ma60SlopeOf rows) (some 0)) = true
    · rw [if_pos h2]; decide
    · rw [if_neg h2] at h ⊢
      by_cases h3 : oGe (currRow rows).close (currRow rows).ma60 = true
      · rw [if_pos h3]; decide
      · rw [if_neg h3] at h; simp at h

/-- C1: every Decision Record produced by `strategy_engine` satisfies the
three invariants: `buy = true` implies `watch = true`; `mode = NoTrade`
implies `watch = false` and `buy = false`; and a BEAR regime (either as the
primary `market_regime` field or the legacy `regime` alias) implies
`watch = false` and `buy = false`. -/
theorem c1_engine_invariants (rows : List Row) :
    ((strategy_engine rows).buy = true → (strategy_engine rows).watch = true)
      ∧ ((strategy_engine rows).mode = "NoTrade" →
          (strategy_engine rows).watch = false ∧ (strategy_engine rows).buy = false)
      ∧ ((strategy_engine rows).market_regime = "BEAR" →
          (strategy_engine rows).watch = false ∧ (strategy_engine rows).buy = false)
      ∧ ((strategy_engine rows).regime = some "BEAR" →
          (strategy_engine rows).watch = false ∧ (strategy_engine rows).buy = false) := by
  unfold strategy_engine
  split
  · refine ⟨?_, ?_, ?_, ?_⟩ <;> intro h <;> simp_all
  · split
    · refine ⟨?_, ?_, ?_, ?_⟩ <;> intro h <;> simp_all
    · split
      · refine ⟨?_, ?_, ?_, ?_⟩ <;> intro h <;> simp_all
      · rename_i hlen hallow hmode
        have hal : (market_regime_gate rows).allow_long = true := by
          revert hallow; cases (market_regime_gate rows).allow_long <;> simp
        have hnb := gate_allow_long_not_bear rows hal
        refine ⟨?_, ?_, ?_, ?_⟩
        · intro h
          simp only at h ⊢
          exact evaluate_stock_buy_imp_watch rows _ _ h
        · intro h
          simp only at h
          exact absurd h (by split <;> decide)
        · intro h
          simp only at h
          exact absurd h hnb
        · intro h
          simp only [Option.some.injEq] at h
          exact absurd h hnb

/-- The confidence formula as the specification states it:
40·Watch + 40·Buy + (20 if BULL, 10 if NEUTRAL, else 0), clamped to [0,100]. -/
def confidence_formula (watch buy : Bool) (market_regime : String) : ℤ :=
  clampConfidence ((if watch then 40 else 0) + (if buy then 40 else 0)
    + (if market_regime = "BULL" then 20
       else if market_regime = "NEUTRAL" then 10 else 0))

/-- C9 counterexample: on an empty series with regime BULL and mode Trend,
`evaluate_stock` takes the insufficient-data early return and reports
confidence 0, whereas the claimed formula gives 40·false + 40·false + 20 = 20
for the returned watch/buy flags — the claim fails on the early-return paths. -/
theorem c9_counterexample :
    (evaluate_stock ([] : List Row) "BULL" "Trend").confidence = 0
      ∧ confidence_formula (evaluate_stock ([] : List Row) "BULL" "Trend").watch
          (evaluate_stock ([] : List Row) "BULL" "Trend").buy "BULL" = 20
      ∧ (evaluate_stock ([] : List Row) "BULL" "Trend").confidence
          ≠ confidence_formula (evaluate_stock ([] : List Row) "BULL" "Trend").watch
              (evaluate_stock ([] : List Row) "BULL" "Trend").buy "BULL" := by
  refine ⟨by decide, by decide, by decide⟩

/-- C9 amended: whenever `evaluate_stock` reaches its main evaluation path —
at least 30 rows, a positive 20-day volume average, and a tradeable mode —
the returned confidence equals 40·watch + 40·buy + (20 if BULL else 10 if
NEUTRAL else 0) clamped to [0,100]; the other early returns (insufficient
data, insufficient liquidity, mode NoTrade) report confidence 0 regardless
of the regime bonus. -/
theorem c9_confidence_formula (rows : List Row) (market_regime strategy_mode : String)
    (hlen : ¬ rows.length < 30)
    (hliq : oGt (currRow rows).vol_ma20 (some 0) = true)
    (hmode : strategy_mode ≠ "NoTrade") :
    (evaluate_stock rows market_regime strategy_mode).confidence
      = confidence_formula (evaluate_stock rows market_regime strategy_mode).watch
          (evaluate_stock rows market_regime strategy_mode).buy market_regime := by
  unfold evaluate_stock
  rw [if_neg hlen]
  rw [if_neg (by rw [hliq]; simp)]
  by_cases h3 : market_regime = "BEAR"
  · rw [if_pos h3, h3]
    decide
  · rw [if_neg h3, if_neg hmode]
    simp only [confidence_formula]

/-- A series of 30 rows with defined 20-day volume average and nothing else:
the main path of `evaluate_stock` is reached with watch = buy = false. -/
def c9rows : List Row := List.replicate 30 { vol_ma20 := some 1000 }

/-- Witness for C9 at `c9rows` with regime BULL, mode Trend: all three
hypotheses hold and the returned confidence, 20, matches the formula. -/
theorem c9_confidence_formula_witness :
    (¬ c9rows.length < 30
      ∧ oGt (currRow c9rows).vol_ma20 (some 0) = true
      ∧ "Trend" ≠ "NoTrade")
    ∧ (evaluate_stock c9rows "BULL" "Trend").confidence
        = confidence_formula (evaluate_stock c9rows "BULL" "Trend").watch
            (evaluate_stock c9rows "BULL" "Trend").buy "BULL"
    ∧ (evaluate_stock c9rows "BULL" "Trend").confidence = 20 :=
  ⟨⟨by decide, by decide, by decide⟩,
   c9_confidence_formula c9rows "BULL" "Trend" (by decide) (by decide) (by decide),
   by decide⟩

theorem evaluate_stock_watch_main (rows : List Row) (g m : String)
    (h1 : ¬ rows.length < 30) (h2 : ¬ (!oGt (currRow rows).vol_ma20 (some 0)) = true)
    (h3 : ¬ g = "BEAR") (h4 : ¬ m = "NoTrade") :
    (evaluate_stock rows g m).watch = (watch_signal rows g m).fst := by
  unfold evaluate_stock
  rw [if_neg h1, if_neg h2, if_neg h3, if_neg h4]

theorem evaluate_stock_buy_main (rows : List Row) (g m : String)
    (h1 : ¬ rows.length < 30) (h2 : ¬ (!oGt (currRow rows).vol_ma20 (some 0)) = true)
    (h3 : ¬ g = "BEAR") (h4 : ¬ m = "NoTrade") :
    (evaluate_stock rows g m).buy = (buy_signal rows g m (watch_signal rows g m).fst).fst := by
  unfold evaluate_stock
  rw [if_neg h1, if_neg h2, if_neg h3, if_neg h4]
  show (if ((buy_signal rows g m (watch_signal rows g m).fst).fst
      && !(watch_signal rows g m).fst) = true then false
    else (buy_signal rows g m (watch_signal rows g m).fst).fst) = _
  rw [buy_and_not_watch_false]
  simp

theorem evaluate_stock_parts_main (rows : List Row) (g m : String)
    (h1 : ¬ rows.length < 30) (h2 : ¬ (!oGt (currRow rows).vol_ma20 (some 0)) = true)
    (h3 : ¬ g = "BEAR") (h4 : ¬ m = "NoTrade") :
    (evaluate_stock rows g m).reason_parts
      = (if (watch_signal rows g m).fst then
           (if is_overextended (currRow rows) && (watch_signal rows g m).fst then
              (watch_signal rows g m).snd ++ [overextensionCaveat]
            else (watch_signal rows g m).snd)
         else [])
        ++ (if (buy_signal rows g m (watch_signal rows g m).fst).fst then
              (if (buy_signal rows g m (watch_signal rows g m).fst).fst
                  && !(watch_signal rows g m).fst then []
               else (buy_signal rows g m (watch_signal rows g m).fst).snd)
            else []) := by
  unfold evaluate_stock
  rw [if_neg h1, if_neg h2, if_neg h3, if_neg h4]
  show ((if (watch_signal rows g m).fst = true then _ else []) ++ _) = _
  rw [buy_and_not_watch_false]
  simp

theorem max_extension_eq : MAX_MA60_EXTENSION = (5 : ℚ) / 4 := by
  rw [MAX_MA60_EXTENSION, mkQ_eq 5 4 (by norm_num)]
  norm_num

theorem is_overextended_true_of_ratio (curr : Row) (c m : ℚ)
    (hc : curr.close = some c) (hm : curr.ma60 = some m) (hmpos : 0 < m)
    (hr : (5 : ℚ) / 4 < c / m) : is_overextended curr = true := by
  unfold is_overextended ma60_extension_ratio
  rw [hc, hm]
  rw [if_pos (show oGt (some m) (some 0) = true by
    simp only [oGt]; exact decide_eq_true hmpos)]
  simp only [odiv, oGt, qdiv_eq, max_extension_eq]
  exact decide_eq_true hr

theorem watch_signal_false_of_close_lt_ma60 (rows : List Row) (g m : String) (c v : ℚ)
    (hc : (currRow rows).close = some c) (hm : (currRow rows).ma60 = some v)
    (hlt : c < v) : (watch_signal rows g m).fst = false := by
  have hge : oGe (currRow rows).close (currRow rows).ma60 = false := by
    rw [hc, hm]
    simp only [oGe]
    exact decide_eq_false (not_le.mpr hlt)
  unfold watch_signal
  by_cases hbull : g = "BULL"
  · rw [if_pos hbull]
    by_cases ht : m = "Trend"
    · rw [if_pos ht]
      simp [hge]
    · rw [if_neg ht]
      by_cases hp : m = "Pullback"
      · rw [if_pos hp]
        simp [hge]
      · rw [if_neg hp]
  · rw [if_neg hbull]

/-- C4: whenever the ratio close ÷ MA60 of the most recent row exceeds the
fixed threshold 1.25, the record returned by `evaluate_stock` has
`buy = false`, and if `watch` is nevertheless true the over-extension caveat
is appended to the reason parts (and hence to the joined reason string). -/
theorem c4_overextension_blocks_buy (rows : List Row) (market_regime strategy_mode : String)
    (c m : ℚ) (hc : (currRow rows).close = some c) (hm : (currRow rows).ma60 = some m)
    (hratio : (5 : ℚ) / 4 < c / m) :
    (evaluate_stock rows market_regime strategy_mode).buy = false
      ∧ ((evaluate_stock rows market_regime strategy_mode).watch = true →
          overextensionCaveat ∈ (evaluate_stock rows market_regime strategy_mode).reason_parts) := by
  by_cases h1 : rows.length < 30
  · unfold evaluate_stock
    rw [if_pos h1]
    exact ⟨rfl, by intro hh; simp at hh⟩
  by_cases h2 : (!oGt (currRow rows).vol_ma20 (some 0)) = true
  · unfold evaluate_stock
    rw [if_neg h1, if_pos h2]
    exact ⟨rfl, by intro hh; simp at hh⟩
  by_cases h3 : market_regime = "BEAR"
  · unfold evaluate_stock
    rw [if_neg h1, if_neg h2, if_pos h3]
    exact ⟨rfl, by intro hh; simp at hh⟩
  by_cases h4 : strategy_mode = "NoTrade"
  · unfold evaluate_stock
    rw [if_neg h1, if_neg h2, if_neg h3, if_pos h4]
    exact ⟨rfl, by intro hh; simp at hh⟩
  rcases lt_trichotomy m 0 with hm0 | hm0 | hm0
  · -- MA60 negative: the ratio hypothesis forces close < MA60, so Watch (and
    -- hence Buy) is structurally false in every mode.
    have hlt : c < m := by
      have hstep : c < 5 / 4 * m := by
        have := (lt_div_iff_of_neg hm0).mp hratio
        linarith
      nlinarith
    have hw := watch_signal_false_of_close_lt_ma60 rows market_regime strategy_mode c m hc hm hlt
    constructor
    · rw [evaluate_stock_buy_main rows _ _ h1 h2 h3 h4, hw, buy_signal_of_watch_false]
    · intro hwatch
      rw [evaluate_stock_watch_main rows _ _ h1 h2 h3 h4, hw] at hwatch
      exact absurd hwatch (by simp)
  · -- MA60 zero: the hypothesis is vacuous (division by zero yields 0 in ℚ,
    -- and the source would take ratio = 1.0 in this case anyway).
    rw [hm0, div_zero] at hratio
    norm_num at hratio
  · -- MA60 positive: the overextension guard blocks Buy and tags Watch.
    have hover := is_overextended_true_of_ratio (currRow rows) c m hc hm hm0 hratio
    constructor
    · rw [evaluate_stock_buy_main rows _ _ h1 h2 h3 h4]
      unfold buy_signal
      simp [hover]
    · intro hwatch
      rw [evaluate_stock_watch_main rows _ _ h1 h2 h3 h4] at hwatch
      rw [evaluate_stock_parts_main rows _ _ h1 h2 h3 h4, hwatch, hover]
      simp

/-- A 30-row series whose last row is 30% above its 60-day average while the
Mode B trend structure holds: Watch fires, Buy is blocked by overextension. -/
def c4rows : List Row :=
  ((List.range 29).map fun i => { ma60 := some (mkQ (960 + (i : ℤ)) 10) })
    ++ [{ close := some 130, ma20 := some 101, ma60 := some 100, vol_ma20 := some 1000 }]

/-- Witness for C4 at `c4rows` with regime BULL and mode Trend: the ratio
130/100 exceeds 1.25, Watch is true, Buy is forced false, and the caveat is
carried in the reason parts. -/
theorem c4_overextension_blocks_buy_witness :
    ((currRow c4rows).close = some 130 ∧ (currRow c4rows).ma60 = some 100
       ∧ (5 : ℚ) / 4 < 130 / 100
       ∧ (evaluate_stock c4rows "BULL" "Trend").watch = true)
    ∧ ((evaluate_stock c4rows "BULL" "Trend").buy = false
       ∧ ((evaluate_stock c4rows "BULL" "Trend").watch = true →
           overextensionCaveat ∈ (evaluate_stock c4rows "BULL" "Trend").reason_parts)) :=
  ⟨⟨by decide, by decide, by norm_num, by decide⟩,
   c4_overextension_blocks_buy c4rows "BULL" "Trend" 130 100 (by decide) (by decide)
     (by norm_num)⟩

theorem le_foldl_max (l : List ℚ) :
    ∀ (a : ℚ), a ≤ l.foldl (fun x y => if x < y then y else x) a := by
  induction l with
  | nil => intro a; exact le_refl a
  | cons y ys ih =>
    intro a
    refine le_trans ?_ (ih (if a < y then y else a))
    split
    · exact le_of_lt (by assumption)
    · exact le_refl a

theorem mem_le_foldl_max (l : List ℚ) :
    ∀ (a x : ℚ), x ∈ l → x ≤ l.foldl (fun x y => if x < y then y else x) a := by
  induction l with
  | nil => intro a x hx; simp at hx
  | cons y ys ih =>
    intro a x hx
    rcases List.mem_cons.mp hx with rfl | hmem
    · refine le_trans ?_ (le_foldl_max ys _)
      show x ≤ if a < x then x else a
      split
      · exact le_refl x
      · exact le_of_not_lt (by assumption)
    · exact ih _ x hmem

theorem oMaxList_ge_mem (l : List (Option ℚ)) (x mx : ℚ)
    (hx : some x ∈ l) (hm : oMaxList l = some mx) : x ≤ mx := by
  unfold oMaxList at hm
  have hx2 : x ∈ l.filterMap id := List.mem_filterMap.mpr ⟨some x, hx, rfl⟩
  cases hfm : l.filterMap id with
  | nil => rw [hfm] at hx2; simp at hx2
  | cons h t =>
    rw [hfm] at hm hx2
    simp only [Option.some.injEq] at hm
    rcases List.mem_cons.mp hx2 with rfl | hmemt
    · rw [← hm]; exact le_foldl_max t x
    · rw [← hm]; exact mem_le_foldl_max t h x hmemt

theorem getElem_mem_windowAt (w i : ℕ) (xs : List ℚ) (hw : 1 ≤ w) (x : ℚ)
    (hx : xs[i]? = some x) : x ∈ windowAt w i xs := by
  unfold windowAt
  have h1 : (xs.take (i + 1))[i]? = some x := by
    rw [List.getElem?_take]
    rw [if_pos (by omega)]
    exact hx
  have h2 : ((xs.take (i + 1)).drop (i + 1 - w))[i - (i + 1 - w)]? = some x := by
    rw [List.getElem?_drop]
    rw [show i + 1 - w + (i - (i + 1 - w)) = i by omega]
    exact h1
  exact List.getElem?_mem h2

theorem enrich_break_high_false (bars : List Bar) (hcl : ∀ b ∈ bars, b.close ≤ b.high) :
    ∀ r ∈ enrich bars, breakHigh60Check r = false := by
  intro r hr
  unfold enrich at hr
  rcases List.mem_map.mp hr with ⟨i, hi, rfl⟩
  have hilen : i < bars.length := List.mem_range.mp hi
  unfold breakHigh60Check enrichRowAt
  simp only
  cases hh : go (rollingMax 60 (highsOf bars)) i with
  | none => cases hcv : gq (closesOf bars) i <;> rfl
  | some mx =>
    have hb : bars[i]? = some bars[i] := List.getElem?_eq_getElem hilen
    have hclose : gq (closesOf bars) i = some (bars[i].close) := by
      unfold gq closesOf
      rw [List.getElem?_map, hb]
      rfl
    have hhigh : (highsOf bars)[i]? = some (bars[i].high) := by
      unfold highsOf
      rw [List.getElem?_map, hb]
      rfl
    have hhx : bars[i].high ∈ windowAt 60 i (highsOf bars) :=
      getElem_mem_windowAt 60 i (highsOf bars) (by omega) _ hhigh
    have hmax : oMaxList ((windowAt 60 i (highsOf bars)).map some) = some mx := by
      unfold go rollingMax at hh
      rw [List.getElem?_map, List.getElem?_range (by
        rw [show (highsOf bars).length = bars.length by unfold highsOf; simp]
        exact hilen)] at hh
      have hh2 : (if 60 ≤ i + 1 then oMaxList ((windowAt 60 i (highsOf bars)).map some)
          else none) = some mx := hh
      split at hh2
      · exact hh2
      · simp at hh2
    have hle : bars[i].high ≤ mx :=
      oMaxList_ge_mem _ _ _ (List.mem_map_of_mem some hhx) hmax
    have hcle : bars[i].close ≤ mx :=
      le_trans (hcl _ (List.getElem_mem hilen)) hle
    rw [hclose]
    simp only [oGt]
    exact decide_eq_false (not_lt.mpr hcle)

theorem currRow_enrich_break_high_false (bars : List Bar)
    (hcl : ∀ b ∈ bars, b.close ≤ b.high) :
    breakHigh60Check (currRow (enrich bars)) = false := by
  have hall := enrich_break_high_false bars hcl
  cases hrows : enrich bars with
  | nil => decide
  | cons r0 rest =>
    rw [← hrows]
    have hmem : currRow (enrich bars) ∈ enrich bars := by
      unfold currRow
      rw [hrows]
      have hlt : (r0 :: rest).length - 1 < (r0 :: rest).length := by simp
      rw [List.getElem?_eq_getElem hlt]
      exact List.getElem_mem hlt
    exact hall _ hmem

/-- C10: on any input series in which every bar closes at or below its high,
the Composite Scorer's "breaks the 60-day high" check (`Close > High_60`) is
false on every row of the enriched series — `High_60` is the rolling
60-day maximum of High including the current day — and in particular the
check contributes 0 rather than its point at the row the scorer reads. -/
theorem c10_break_high_never_fires (bars : List Bar)
    (hcl : ∀ b ∈ bars, b.close ≤ b.high) :
    ((enrich bars).all fun r => !breakHigh60Check r) = true
      ∧ (if breakHigh60Check (currRow (enrich bars)) then (1 : ℚ) else 0) = 0 := by
  have hall := enrich_break_high_false bars hcl
  constructor
  · rw [List.all_eq_true]
    intro r hr
    rw [hall r hr]
    rfl
  · rw [currRow_enrich_break_high_false bars hcl]
    simp

/-- Three bars closing at their highs: the hypothesis of C10 holds. -/
def c10bars : List Bar := List.replicate 3 ⟨1, 2, 0, 2, 100⟩

/-- Witness for C10 at `c10bars`. -/
theorem c10_break_high_never_fires_witness :
    (∀ b ∈ c10bars, b.close ≤ b.high)
      ∧ (((enrich c10bars).all fun r => !breakHigh60Check r) = true
         ∧ (if breakHigh60Check (currRow (enrich c10bars)) then (1 : ℚ) else 0) = 0) :=
  ⟨by decide, c10_break_high_never_fires c10bars (by decide)⟩

theorem mkq_int_eq (n : ℤ) : mkQ n 1 = (n : ℚ) := by
  rw [mkQ_eq n 1 (by norm_num)]
  norm_num

theorem analyze_score_sum_bounds (info : FundamentalInfo) (curr prevR : Row) :
    0 ≤ analyze_score_sum info curr prevR
      ∧ analyze_score_sum info curr prevR ≤ 11
      ∧ (breakHigh60Check curr = false → analyze_score_sum info curr prevR ≤ 10) := by
  have hhalf : mkQ 1 2 = (1 : ℚ) / 2 := by rw [mkQ_eq 1 2 (by norm_num)]; norm_num
  unfold analyze_score_sum
  rw [qsum_eq]
  simp only [List.sum_cons, List.sum_nil, add_zero]
  have h1 : 0 ≤ (if peCheck info then (1 : ℚ) else 0)
      ∧ (if peCheck info then (1 : ℚ) else 0) ≤ 1 := by constructor <;> split <;> norm_num
  have h2 : 0 ≤ (if pegCheck info then (1 : ℚ) else 0)
      ∧ (if pegCheck info then (1 : ℚ) else 0) ≤ 1 := by constructor <;> split <;> norm_num
  have h3 : 0 ≤ (if earningsGrowthCheck info then (1 : ℚ)
        else if epsPositive info then mkQ 1 2 else 0)
      ∧ (if earningsGrowthCheck info then (1 : ℚ)
        else if epsPositive info then mkQ 1 2 else 0) ≤ 1 := by
    constructor
    · split
      · norm_num
      · split <;> norm_num [hhalf]
    · split
      · norm_num
      · split <;> norm_num [hhalf]
  have h4 : 0 ≤ (if revenueGrowthCheck info then (1 : ℚ) else 0)
      ∧ (if revenueGrowthCheck info then (1 : ℚ) else 0) ≤ 1 := by
    constructor <;> split <;> norm_num
  have h5 : 0 ≤ (if oGt curr.ma20 curr.ma60 then (1 : ℚ) else 0)
      ∧ (if oGt curr.ma20 curr.ma60 then (1 : ℚ) else 0) ≤ 1 := by
    constructor <;> split <;> norm_num
  have h6 : 0 ≤ (if oGt curr.close curr.ma60 then (1 : ℚ) else 0)
      ∧ (if oGt curr.close curr.ma60 then (1 : ℚ) else 0) ≤ 1 := by
    constructor <;> split <;> norm_num
  have h7 : 0 ≤ (if curr.ma60_rising then (1 : ℚ) else 0)
      ∧ (if curr.ma60_rising then (1 : ℚ) else 0) ≤ 1 := by
    constructor <;> split <;> norm_num
  have h8 : 0 ≤ (if rsiGoldenCross prevR curr then (1 : ℚ) else 0)
      ∧ (if rsiGoldenCross prevR curr then (1 : ℚ) else 0) ≤ 1 := by
    constructor <;> split <;> norm_num
  have h9 : 0 ≤ (if macdTurningUp prevR curr then (1 : ℚ) else 0)
      ∧ (if macdTurningUp prevR curr then (1 : ℚ) else 0) ≤ 1 := by
    constructor <;> split <;> norm_num
  have h10 : 0 ≤ (if breakHigh60Check curr then (1 : ℚ) else 0)
      ∧ (if breakHigh60Check curr then (1 : ℚ) else 0) ≤ 1 := by
    constructor <;> split <;> norm_num
  have h11 : 0 ≤ (if volumeSurgeCheck curr then (1 : ℚ) else 0)
      ∧ (if volumeSurgeCheck curr then (1 : ℚ) else 0) ≤ 1 := by
    constructor <;> split <;> norm_num
  refine ⟨?_, ?_, ?_⟩
  · linarith [h1.1, h2.1, h3.1, h4.1, h5.1, h6.1, h7.1, h8.1, h9.1, h10.1, h11.1]
  · linarith [h1.2, h2.2, h3.2, h4.2, h5.2, h6.2, h7.2, h8.2, h9.2, h10.2, h11.2]
  · intro hb
    rw [hb]
    simp only [Bool.false_eq_true, if_false]
    linarith [h1.2, h2.2, h3.2, h4.2, h5.2, h6.2, h7.2, h8.2, h9.2, h11.2,
      h1.1, h2.1, h3.1, h4.1, h5.1, h6.1, h7.1, h8.1, h9.1, h11.1]

theorem analyze_stock_score_eq (info : FundamentalInfo) (rows : List Row) (q : ℚ)
    (h : analyze_stock_score info rows = some q) :
    q = analyze_score_sum info (currRow rows) (prevRow rows) / 10 * 100 := by
  unfold analyze_stock_score at h
  split at h
  · simp at h
  · simp only [Option.some.injEq] at h
    rw [← h, qmul_eq, qdiv_eq, mkq_int_eq, mkq_int_eq]
    norm_num

/-- C7 amended: the Composite Scorer's final score is the accumulated check
weight divided by 10 and multiplied by 100; since the eleven checks carry a
maximum total weight of 11, the score always lies in [0, 110] (not [0, 100]),
and it lies in [0, 100] for every input in which each bar closes at or below
its high, because the 60-day-high check can then never fire. -/
theorem c7_score_bounds :
    (∀ (info : FundamentalInfo) (rows : List Row) (q : ℚ),
        analyze_stock_score info rows = some q → 0 ≤ q ∧ q ≤ 110)
      ∧ (∀ (info : FundamentalInfo) (bars : List Bar) (q : ℚ),
          (∀ b ∈ bars, b.close ≤ b.high) →
          analyze_stock_on_bars info bars = some q → q ≤ 100) := by
  constructor
  · intro info rows q h
    have hq := analyze_stock_score_eq info rows q h
    have hb := analyze_score_sum_bounds info (currRow rows) (prevRow rows)
    constructor
    · rw [hq]; nlinarith [hb.1]
    · rw [hq]; nlinarith [hb.2.1]
  · intro info bars q hcl h
    unfold analyze_stock_on_bars process_indicators at h
    by_cases hlen : bars.length < 30
    · rw [if_pos hlen] at h
      simp at h
    · rw [if_neg hlen] at h
      have h2 : analyze_stock_score info (enrich bars) = some q := h
      have hq := analyze_stock_score_eq info (enrich bars) q h2
      have hb := (analyze_score_sum_bounds info (currRow (enrich bars))
        (prevRow (enrich bars))).2.2 (currRow_enrich_break_high_false bars hcl)
      rw [hq]
      nlinarith [hb, (analyze_score_sum_bounds info (currRow (enrich bars))
        (prevRow (enrich bars))).1]

/-- The 63-bar series refuting the [0,100] bound of C7: a slow rise, a
13-day decline, then a huge final bar whose close (1000) exceeds every high
(all highs are 1, i.e. the bars are malformed with close > high, which the
pipeline accepts), with a volume spike; all eleven checks fire. -/
def c7bars : List Bar :=
  ((List.range 49).map fun i =>
    { open_price := 0, high := 1, low := 0, close := mkQ (100 + (i : ℤ)) 1, volume := 1000 })
  ++ ((List.range 13).map fun k =>
    { open_price := 0, high := 1, low := 0, close := mkQ (148 - 3 * ((k : ℤ) + 1)) 1,
      volume := 1000 })
  ++ [{ open_price := 0, high := 1, low := 0, close := 1000, volume := 10000 }]

/-- Fundamentals that satisfy all four valuation checks. -/
def c7info : FundamentalInfo :=
  { trailingPE := some 10, pegRatio := some 1, earningsGrowth := some 1,
    trailingEps := some 5, revenueGrowth := some 1 }

set_option maxRecDepth 100000 in
/-- C7 counterexample: on `c7bars` with `c7info` all eleven checks of the
Composite Scorer fire simultaneously, the accumulated weight is 11, and the
returned score is (11/10)·100 = 110 > 100 — so the score does not always lie
in [0, 100]. -/
theorem c7_counterexample :
    analyze_stock_on_bars c7info c7bars = some 110 ∧ ¬((110 : ℚ) ≤ 100) := by
  constructor
  · decide
  · decide

/-- Thirty bars closing at their highs, used to witness the amended bounds. -/
def c7witnessBars : List Bar := List.replicate 30 ⟨1, 2, 0, 2, 100⟩

set_option maxRecDepth 100000 in
/-- Witness for the amended C7 bounds: a two-row series scores 0 (inside
[0,110]), and a 30-bar close-at-high series scores 0 ≤ 100 with its
hypothesis discharged concretely. -/
theorem c7_score_bounds_witness :
    (analyze_stock_score {} [emptyRow, emptyRow] = some 0
       ∧ 0 ≤ (0 : ℚ) ∧ (0 : ℚ) ≤ 110)
    ∧ ((∀ b ∈ c7witnessBars, b.close ≤ b.high)
       ∧ analyze_stock_on_bars {} c7witnessBars = some 0
       ∧ (0 : ℚ) ≤ 100) :=
  ⟨⟨by decide, (c7_score_bounds.1 {} [emptyRow, emptyRow] 0 (by decide)).1,
    (c7_score_bounds.1 {} [emptyRow, emptyRow] 0 (by decide)).2⟩,
   ⟨by decide, by decide,
    le_trans (c7_score_bounds.2 {} c7witnessBars 0 (by decide) (by decide)) (le_refl 100)⟩⟩

end StockApp
